import Mathlib

/-!
Verification development for the robot-telemetry relay backend
(`backend/app/robot_state.py`, `backend/app/telemetry_processor.py`,
`backend/app/websocket_server.py`, `backend/app/mqtt_manager.py`,
`backend/app/main.py`).

The Python code is shallowly embedded: mutable objects become explicit
state passing, Python floats over the small exact values exercised here
become rationals, wall-clock reads (`time.time()` / `datetime.utcnow()`)
become an explicit `now` parameter, and the fallible database commit
becomes an explicit `commit_fails` flag whose `true` branch models the
`except`/`rollback`/`raise` path.
-/

namespace RobotBackend

/-- `RobotPose` from `robot_state.py`: position and orientation, fields
default to `0.0`. -/
structure RobotPose where
  x : ℚ := 0
  y : ℚ := 0
  theta : ℚ := 0
  deriving DecidableEq

/-- The optional `pose` sub-object of a telemetry payload: each of
`x`, `y`, `theta` may be present or absent. -/
structure PoseData where
  x? : Option ℚ := none
  y? : Option ℚ := none
  theta? : Option ℚ := none
  deriving DecidableEq

/-- A telemetry payload dictionary: every field the backend reads from an
inbound status message, each optional (absent key = `none`). -/
structure Payload where
  robot_id? : Option String := none
  mode? : Option String := none
  status? : Option String := none
  battery? : Option ℚ := none
  pose? : Option PoseData := none
  health? : Option ℚ := none
  temperature? : Option ℚ := none
  gps_latitude? : Option ℚ := none
  gps_longitude? : Option ℚ := none
  deriving DecidableEq

/-- `RobotState` from `robot_state.py`: complete robot state snapshot. -/
structure RobotState where
  robot_id : String
  mode : String := "UNKNOWN"
  status : String := "UNKNOWN"
  battery : ℚ := 0
  pose : RobotPose := {}
  last_updated : ℚ
  errors : List String := []
  deriving DecidableEq

/-- A fresh `RobotState(robot_id=...)`: dataclass defaults, with
`last_updated` taken from the clock at creation time. -/
def RobotState.init (robot_id : String) (now : ℚ) : RobotState :=
  { robot_id := robot_id, last_updated := now }

/-- `RobotState.update_from_telemetry`: each present field overwrites the
cached one; a present `pose` object overwrites all three components with
`pose_data.get(k, 0.0)`; `last_updated` is set to the current clock. -/
def RobotState.update_from_telemetry (s : RobotState) (data : Payload) (now : ℚ) :
    RobotState :=
  let s1 := match data.mode? with
    | some m => { s with mode := m }
    | none => s
  let s2 := match data.status? with
    | some v => { s1 with status := v }
    | none => s1
  let s3 := match data.battery? with
    | some b => { s2 with battery := b }
    | none => s2
  let s4 := match data.pose? with
    | some pd =>
        { s3 with pose := { x := pd.x?.getD 0, y := pd.y?.getD 0, theta := pd.theta?.getD 0 } }
    | none => s3
  { s4 with last_updated := now }

/-- A Python `dict` keyed by strings, as an insertion-ordered association
list. -/
abbrev StrMap (α : Type) := List (String × α)

/-- `m[k] = v` on a Python dict: replace in place if the key exists,
append otherwise. -/
def dictSet {α : Type} (m : StrMap α) (k : String) (v : α) : StrMap α :=
  match m with
  | [] => [(k, v)]
  | (k0, v0) :: rest =>
      if k0 = k then (k0, v) :: rest else (k0, v0) :: dictSet rest k v

/-- `m.get(k)` on a Python dict. -/
def dictGet? {α : Type} (m : StrMap α) (k : String) : Option α :=
  match m with
  | [] => none
  | (k0, v0) :: rest => if k0 = k then some v0 else dictGet? rest k

/-- The `_states` mapping of `RobotStateCache`. -/
abbrev RobotStateCache := StrMap RobotState

/-- `RobotStateCache.get_state`. -/
def RobotStateCache.get_state (c : RobotStateCache) (robot_id : String) :
    Option RobotState :=
  dictGet? c robot_id

/-- `RobotStateCache.update_state`: create the entity if absent, then
apply `update_from_telemetry` and store the result. -/
def RobotStateCache.update_state (c : RobotStateCache) (robot_id : String)
    (telemetry : Payload) (now : ℚ) : RobotStateCache :=
  let base := (c.get_state robot_id).getD (RobotState.init robot_id now)
  dictSet c robot_id (base.update_from_telemetry telemetry now)

/-- `RobotStateCache.add_error`: create the entity if absent; if the error
list already holds 10 entries, `pop(0)` the oldest; then append. -/
def RobotStateCache.add_error (c : RobotStateCache) (robot_id : String)
    (error : String) (now : ℚ) : RobotStateCache :=
  let base := (c.get_state robot_id).getD (RobotState.init robot_id now)
  let errs := if base.errors.length ≥ 10 then base.errors.drop 1 else base.errors
  dictSet c robot_id { base with errors := errs ++ [error] }

theorem dictGet?_dictSet_self {α : Type} (m : StrMap α) (k : String) (v : α) :
    dictGet? (dictSet m k v) k = some v := by
  induction m with
  | nil => simp [dictSet, dictGet?]
  | cons kv rest ih =>
      obtain ⟨k0, v0⟩ := kv
      by_cases h : k0 = k <;> simp [dictSet, dictGet?, h, ih]

theorem get_state_dictSet_self (c : RobotStateCache) (k : String) (v : RobotState) :
    RobotStateCache.get_state (dictSet c k v) k = some v :=
  dictGet?_dictSet_self c k v

theorem battery_update_from_telemetry (s : RobotState) (m? v? : Option String)
    (b : ℚ) (p? : Option PoseData) (now : ℚ) :
    (s.update_from_telemetry
      { mode? := m?, status? := v?, battery? := some b, pose? := p? } now).battery = b := by
  cases m? <;> cases v? <;> cases p? <;> rfl

/-- Claim C1 (counterexample): at the cache-write boundary
`RobotStateCache.update_state` / `RobotState.update_from_telemetry`, a
telemetry message with `battery = 150` yields a cached battery of `150`
(not the clamped `100` the claim states), and `battery = -20` yields
`-20` (not `0`): the code performs no clamping. -/
theorem battery_clamp_counterexample :
    ((RobotStateCache.update_state [] "r1" { battery? := some 150 } 0).get_state "r1").map
        RobotState.battery = some 150 ∧
    ((RobotStateCache.update_state [] "r1" { battery? := some (-20) } 0).get_state "r1").map
        RobotState.battery = some (-20) ∧
    (150 : ℚ) ≠ 100 ∧ (-20 : ℚ) ≠ 0 := by
  refine ⟨rfl, rfl, by norm_num, by norm_num⟩

/-- Claim C1 (amended): the cached battery value is NOT clamped: for every
entity id, every prior cache and every telemetry message carrying a
`battery` field, the cached battery after `RobotStateCache.update_state`
is exactly the value given in the message, including values outside
`[0, 100]` such as `150` or `-20`. -/
theorem battery_stored_unclamped (c : RobotStateCache) (robot_id : String)
    (m? v? : Option String) (b : ℚ) (p? : Option PoseData) (now : ℚ) :
    ((c.update_state robot_id
        { mode? := m?, status? := v?, battery? := some b, pose? := p? } now).get_state
        robot_id).map RobotState.battery = some b := by
  unfold RobotStateCache.update_state
  rw [get_state_dictSet_self]
  simp [battery_update_from_telemetry]

/-- Claim C4 (confirmed): applying a telemetry message whose payload
contains only `battery` changes exactly `battery` and `last_updated` and
leaves `mode`, `status` and `pose` at their prior values; and the two-step
scenario `{"battery": 42, "mode": "walking"}` then `{"battery": 40}`
leaves `battery = 40` and `mode = "walking"`. -/
theorem battery_only_update_frame (S : RobotState) (b : ℚ) (now : ℚ) :
    S.update_from_telemetry { battery? := some b } now =
      { S with battery := b, last_updated := now } ∧
    (((RobotStateCache.update_state [] "r1"
          { battery? := some 42, mode? := some "walking" } 0).update_state "r1"
          { battery? := some 40 } 1).get_state "r1").map RobotState.battery = some 40 ∧
    (((RobotStateCache.update_state [] "r1"
          { battery? := some 42, mode? := some "walking" } 0).update_state "r1"
          { battery? := some 40 } 1).get_state "r1").map RobotState.mode =
      some "walking" := by
  refine ⟨rfl, rfl, rfl⟩

/-- Claim C10 (confirmed): when the payload carries a `pose` object, each
pose component is set to the value in the message when present and to `0`
when absent from the pose object — an omitted pose subfield does not
retain its prior cached value, whatever the prior state `s` was. -/
theorem pose_object_overwrites_all_components (s : RobotState) (pd : PoseData)
    (m? v? : Option String) (b? : Option ℚ) (now : ℚ) :
    (s.update_from_telemetry
        { mode? := m?, status? := v?, battery? := b?, pose? := some pd } now).pose =
      { x := pd.x?.getD 0, y := pd.y?.getD 0, theta := pd.theta?.getD 0 } := by
  cases m? <;> cases v? <;> cases b? <;> rfl

/-- Claim C5 (confirmed): for every entity id not yet in the cache,
appending 15 errors one at a time via `RobotStateCache.add_error` leaves
exactly the 10 most recently appended errors, in append order — the 5
oldest are evicted first-in-first-out once the cap of 10 is exceeded. -/
theorem error_list_capped_at_ten (c : RobotStateCache) (robot_id : String)
    (h : c.get_state robot_id = none) (now : ℚ)
    (e1 e2 e3 e4 e5 e6 e7 e8 e9 e10 e11 e12 e13 e14 e15 : String) :
    ((List.foldl (fun acc e => RobotStateCache.add_error acc robot_id e now) c
        [e1, e2, e3, e4, e5, e6, e7, e8, e9, e10, e11, e12, e13, e14, e15]).get_state
        robot_id).map RobotState.errors =
      some [e6, e7, e8, e9, e10, e11, e12, e13, e14, e15] := by
  simp only [List.foldl, RobotStateCache.add_error, h, get_state_dictSet_self,
    Option.getD_some, Option.getD_none, RobotState.init]
  norm_num

/-- Claim C5 witness: the theorem applied at the empty cache and concrete
error strings. -/
theorem error_list_capped_at_ten_witness :
    RobotStateCache.get_state [] "r1" = none ∧
    ((List.foldl (fun acc e => RobotStateCache.add_error acc "r1" e 0) []
        ["a1", "a2", "a3", "a4", "a5", "a6", "a7", "a8", "a9", "a10", "a11", "a12",
         "a13", "a14", "a15"]).get_state "r1").map RobotState.errors =
      some ["a6", "a7", "a8", "a9", "a10", "a11", "a12", "a13", "a14", "a15"] :=
  ⟨rfl, error_list_capped_at_ten [] "r1" rfl 0 "a1" "a2" "a3" "a4" "a5" "a6" "a7" "a8"
    "a9" "a10" "a11" "a12" "a13" "a14" "a15"⟩

/-- A row of the `telemetry_logs` table (`TelemetryLog` in `database.py`):
the complete telemetry snapshot persisted per accepted write. -/
structure TelemetryLogRow where
  robot_id : String
  mode : Option String
  status : Option String
  battery_level : Option ℚ
  x : Option ℚ
  y : Option ℚ
  theta : Option ℚ
  raw_data : Payload
  timestamp : ℚ
  deriving DecidableEq

/-- A row of the `robot_path_logs` table (`RobotPathLog`). -/
structure RobotPathLogRow where
  robot_id : String
  x : ℚ
  y : ℚ
  theta : ℚ
  timestamp : ℚ
  deriving DecidableEq

/-- A row of the `battery_history` table (`BatteryHistory`). -/
structure BatteryHistoryRow where
  robot_id : String
  battery_level : ℚ
  timestamp : ℚ
  deriving DecidableEq

/-- The persistent store: the three tables telemetry writes touch. -/
structure Database where
  telemetry_logs : List TelemetryLogRow
  path_logs : List RobotPathLogRow
  battery_histories : List BatteryHistoryRow
  deriving DecidableEq

/-- The mutable fields of `TelemetryProcessor`: the per-robot last-write
timestamps and the minimum interval between database writes. -/
structure TelemetryProcessor where
  last_db_write : StrMap ℚ
  min_write_interval : ℚ
  deriving DecidableEq

/-- A freshly constructed `TelemetryProcessor()`: empty last-write map,
`_min_write_interval = 5.0` seconds. -/
def TelemetryProcessor.init : TelemetryProcessor :=
  { last_db_write := [], min_write_interval := 5 }

/-- `TelemetryProcessor.process_telemetry`. Always updates the in-memory
cache first; skips the database entirely when the last write for this
robot was less than `min_write_interval` ago; otherwise records the write
time, stages a `TelemetryLog` row (plus a path row when a complete pose is
present and a battery row when `battery` is present) and commits. A
failing commit (`commit_fails = true`) models the I/O error path: the
session is rolled back (staged rows discarded) and the exception is
re-raised, reported here as the final `Bool`. -/
def TelemetryProcessor.process_telemetry (tp : TelemetryProcessor)
    (cache : RobotStateCache) (db : Database) (robot_id : String)
    (telemetry_data : Payload) (now : ℚ) (commit_fails : Bool) :
    TelemetryProcessor × RobotStateCache × Database × Bool :=
  let cache1 := cache.update_state robot_id telemetry_data now
  let last_write := (dictGet? tp.last_db_write robot_id).getD 0
  if now - last_write < tp.min_write_interval then
    (tp, cache1, db, false)
  else
    let tp1 := { tp with last_db_write := dictSet tp.last_db_write robot_id now }
    let telemetry_log : TelemetryLogRow :=
      { robot_id := robot_id
        mode := telemetry_data.mode?
        status := telemetry_data.status?
        battery_level := telemetry_data.battery?
        x := telemetry_data.pose?.bind PoseData.x?
        y := telemetry_data.pose?.bind PoseData.y?
        theta := telemetry_data.pose?.bind PoseData.theta?
        raw_data := telemetry_data
        timestamp := now }
    let new_path_rows : List RobotPathLogRow :=
      match telemetry_data.pose? with
      | some p =>
          match p.x?, p.y?, p.theta? with
          | some px, some py, some pt =>
              [{ robot_id := robot_id, x := px, y := py, theta := pt, timestamp := now }]
          | _, _, _ => []
      | none => []
    let new_battery_rows : List BatteryHistoryRow :=
      match telemetry_data.battery? with
      | some b => [{ robot_id := robot_id, battery_level := b, timestamp := now }]
      | none => []
    if commit_fails then
      (tp1, cache1, db, true)
    else
      (tp1, cache1,
        { telemetry_logs := db.telemetry_logs ++ [telemetry_log]
          path_logs := db.path_logs ++ new_path_rows
          battery_histories := db.battery_histories ++ new_battery_rows },
        false)

/-- The payload accepted by `TelemetryProcessor.process_pose`: the pose
components may sit under a nested `pose` key or at the top level. -/
structure PosePayload where
  pose? : Option PoseData := none
  x? : Option ℚ := none
  y? : Option ℚ := none
  theta? : Option ℚ := none
  deriving DecidableEq

/-- `TelemetryProcessor.process_pose`. Extracts the pose (nested `pose`
key or the payload itself); silently skips unless all of `x`, `y`,
`theta` are present; updates the pose of the cached state only when the
entity already exists (`if state:` — no creation); then performs the
throttled path-log write under the key `robot_id + "_pose"`. A failing
commit is swallowed (rollback, no re-raise). -/
def TelemetryProcessor.process_pose (tp : TelemetryProcessor)
    (cache : RobotStateCache) (db : Database) (robot_id : String)
    (pose_data : PosePayload) (now : ℚ) (commit_fails : Bool) :
    TelemetryProcessor × RobotStateCache × Database :=
  let pose := pose_data.pose?.getD
    { x? := pose_data.x?, y? := pose_data.y?, theta? := pose_data.theta? }
  match pose.x?, pose.y?, pose.theta? with
  | some px, some py, some pt =>
      let cache1 := match cache.get_state robot_id with
        | some st =>
            dictSet cache robot_id
              { st with pose := { x := px, y := py, theta := pt }, last_updated := now }
        | none => cache
      let key := robot_id ++ "_pose"
      let last_write := (dictGet? tp.last_db_write key).getD 0
      if now - last_write < tp.min_write_interval then
        (tp, cache1, db)
      else
        let tp1 := { tp with last_db_write := dictSet tp.last_db_write key now }
        if commit_fails then
          (tp1, cache1, db)
        else
          (tp1, cache1,
            { db with path_logs := db.path_logs ++
                [{ robot_id := robot_id, x := px, y := py, theta := pt, timestamp := now }] })
  | _, _, _ => (tp, cache, db)

theorem process_telemetry_skip (tp : TelemetryProcessor) (c : RobotStateCache)
    (db : Database) (rid : String) (d : Payload) (now : ℚ) (cf : Bool)
    (h : now - (dictGet? tp.last_db_write rid).getD 0 < tp.min_write_interval) :
    tp.process_telemetry c db rid d now cf = (tp, c.update_state rid d now, db, false) := by
  simp only [TelemetryProcessor.process_telemetry, if_pos h]

theorem process_telemetry_write_ok (tp : TelemetryProcessor) (c : RobotStateCache)
    (db : Database) (rid : String) (d : Payload) (now : ℚ)
    (h : ¬ (now - (dictGet? tp.last_db_write rid).getD 0 < tp.min_write_interval)) :
    (tp.process_telemetry c db rid d now false).1 =
        { tp with last_db_write := dictSet tp.last_db_write rid now } ∧
    (tp.process_telemetry c db rid d now false).2.1 = c.update_state rid d now ∧
    (tp.process_telemetry c db rid d now false).2.2.1.telemetry_logs.length =
        db.telemetry_logs.length + 1 := by
  refine ⟨?_, ?_, ?_⟩ <;> simp [TelemetryProcessor.process_telemetry, if_neg h]

/-- Claim C6 (confirmed): with `min_write_interval = 5` (the constructor
default), two samples for the same robot submitted through
`process_telemetry` 1 second apart persist exactly one `TelemetryLog`
row, while the same two samples 6 seconds apart persist two rows; in the
suppressed case the in-memory cache still reflects both messages, so the
throttle only suppresses writes. -/
theorem throttle_one_row_per_interval (c : RobotStateCache) (db : Database)
    (rid : String) (d1 d2 : Payload) (t1 : ℚ) (h : 5 ≤ t1) :
    (let r1 := TelemetryProcessor.init.process_telemetry c db rid d1 t1 false
     let r2 := r1.1.process_telemetry r1.2.1 r1.2.2.1 rid d2 (t1 + 1) false
     r2.2.2.1.telemetry_logs.length = db.telemetry_logs.length + 1 ∧
       r2.2.1 = (c.update_state rid d1 t1).update_state rid d2 (t1 + 1)) ∧
    (let r1 := TelemetryProcessor.init.process_telemetry c db rid d1 t1 false
     let r2 := r1.1.process_telemetry r1.2.1 r1.2.2.1 rid d2 (t1 + 6) false
     r2.2.2.1.telemetry_logs.length = db.telemetry_logs.length + 2) := by
  have h1 : ¬ (t1 - ((dictGet? TelemetryProcessor.init.last_db_write rid).getD 0) <
      TelemetryProcessor.init.min_write_interval) := by
    simp only [TelemetryProcessor.init, dictGet?, Option.getD_none, sub_zero, not_lt]
    exact h
  obtain ⟨e1, e2, e3⟩ := process_telemetry_write_ok TelemetryProcessor.init c db rid d1 t1 h1
  refine ⟨?_, ?_⟩
  · have h2 : (t1 + 1) -
        ((dictGet? (dictSet TelemetryProcessor.init.last_db_write rid t1) rid).getD 0) <
        TelemetryProcessor.init.min_write_interval := by
      rw [dictGet?_dictSet_self]
      simp only [Option.getD_some, TelemetryProcessor.init]
      norm_num
    dsimp only
    rw [e1, process_telemetry_skip
      { last_db_write := dictSet TelemetryProcessor.init.last_db_write rid t1,
        min_write_interval := TelemetryProcessor.init.min_write_interval }
      _ _ _ _ _ _ h2]
    exact ⟨e3, by rw [e2]⟩
  · have h2 : ¬ ((t1 + 6) -
        ((dictGet? (dictSet TelemetryProcessor.init.last_db_write rid t1) rid).getD 0) <
        TelemetryProcessor.init.min_write_interval) := by
      rw [dictGet?_dictSet_self]
      simp only [Option.getD_some, TelemetryProcessor.init]
      norm_num
    dsimp only
    rw [e1]
    rw [(process_telemetry_write_ok
      { last_db_write := dictSet TelemetryProcessor.init.last_db_write rid t1,
        min_write_interval := TelemetryProcessor.init.min_write_interval }
      _ _ rid d2 (t1 + 6) h2).2.2]
    rw [e3]

/-- Claim C6 witness: the theorem applied at `t1 = 5` with the empty
cache, empty database and empty payloads. -/
theorem throttle_one_row_per_interval_witness :
    (5 : ℚ) ≤ 5 ∧
    ((let r1 := TelemetryProcessor.init.process_telemetry [] ⟨[], [], []⟩ "r1" {} 5 false
      let r2 := r1.1.process_telemetry r1.2.1 r1.2.2.1 "r1" {} (5 + 1) false
      r2.2.2.1.telemetry_logs.length = (⟨[], [], []⟩ : Database).telemetry_logs.length + 1 ∧
        r2.2.1 = (RobotStateCache.update_state [] "r1" {} 5).update_state "r1" {} (5 + 1)) ∧
     (let r1 := TelemetryProcessor.init.process_telemetry [] ⟨[], [], []⟩ "r1" {} 5 false
      let r2 := r1.1.process_telemetry r1.2.1 r1.2.2.1 "r1" {} (5 + 6) false
      r2.2.2.1.telemetry_logs.length =
        (⟨[], [], []⟩ : Database).telemetry_logs.length + 2)) :=
  ⟨by norm_num, throttle_one_row_per_interval [] ⟨[], [], []⟩ "r1" {} {} 5 (by norm_num)⟩

theorem process_pose_unseen_cache (tp : TelemetryProcessor) (c : RobotStateCache)
    (db : Database) (rid : String) (pd : PosePayload) (now : ℚ) (cf : Bool)
    (h : c.get_state rid = none) :
    (tp.process_pose c db rid pd now cf).2.1 = c := by
  simp only [TelemetryProcessor.process_pose]
  generalize pd.pose?.getD { x? := pd.x?, y? := pd.y?, theta? := pd.theta? } = pose
  obtain ⟨px, py, pt⟩ := pose
  cases px <;> cases py <;> cases pt
  all_goals simp only [h]
  all_goals first
    | rfl
    | (split
       · rfl
       · split <;> rfl)

theorem get_state_update_state_isSome (c : RobotStateCache) (rid : String)
    (d : Payload) (now : ℚ) :
    ((c.update_state rid d now).get_state rid).isSome = true := by
  unfold RobotStateCache.update_state
  rw [get_state_dictSet_self]
  rfl

/-- Claim C3 (counterexample): a pose-category message for an id not in
the cache does NOT materialize the entity: `process_pose` of a complete
pose for unseen id `r9` leaves `get_state "r9"` equal to `none`
(NotFound), because the cache mutation is guarded by `if state:`. -/
theorem pose_for_unseen_id_counterexample :
    ((TelemetryProcessor.init.process_pose [] ⟨[], [], []⟩ "r9"
        { pose? := some { x? := some 1, y? := some 2, theta? := some (1/2) } } 10
        false).2.1).get_state "r9" = none := by
  norm_num [TelemetryProcessor.process_pose, TelemetryProcessor.init,
    RobotStateCache.get_state, dictGet?]

/-- Claim C3 (amended): a status-category message for an unseen id does
create the entity in the cache (`update_state`, via
`RobotStateCache.update_state`); but a pose-category message
(`TelemetryProcessor.process_pose`) for an unseen id leaves the cache
unchanged — the entity is not created and `get_state` still returns
none. -/
theorem lazy_creation_only_for_update_state (tp : TelemetryProcessor)
    (c : RobotStateCache) (db : Database) (rid : String) (d : Payload)
    (pd : PosePayload) (now now2 : ℚ) (cf : Bool) (h : c.get_state rid = none) :
    ((c.update_state rid d now).get_state rid).isSome = true ∧
    (tp.process_pose c db rid pd now2 cf).2.1 = c :=
  ⟨get_state_update_state_isSome c rid d now,
   process_pose_unseen_cache tp c db rid pd now2 cf h⟩

/-- Claim C3 witness: the amended theorem applied at the empty cache. -/
theorem lazy_creation_only_for_update_state_witness :
    RobotStateCache.get_state [] "r9" = none ∧
    ((RobotStateCache.update_state [] "r9" {} 0).get_state "r9").isSome = true ∧
    (TelemetryProcessor.init.process_pose [] ⟨[], [], []⟩ "r9"
        { pose? := some { x? := some 3, y? := some 4, theta? := some 5 } } 20
        false).2.1 = [] :=
  ⟨rfl, lazy_creation_only_for_update_state TelemetryProcessor.init [] ⟨[], [], []⟩ "r9"
    {} { pose? := some { x? := some 3, y? := some 4, theta? := some 5 } } 0 20 false rfl⟩

/-- `WebSocketManager` from `websocket_server.py`: the set of active
subscriber connections, modelled as a duplicate-free list of opaque
connection handles. -/
structure WebSocketManager (α : Type) where
  active_connections : List α
  deriving DecidableEq

/-- The delivery loop of `WebSocketManager.broadcast`: attempt
`send_text` to each connection in turn; a connection whose delivery
raises (`fails c = true`) is collected into the `disconnected` set, the
rest receive the message. Returns `(delivered, disconnected)` in
iteration order. -/
def sendLoop {α : Type} (fails : α → Bool) : List α → List α × List α
  | [] => ([], [])
  | c :: rest =>
      let r := sendLoop fails rest
      if fails c then (r.1, c :: r.2) else (c :: r.1, r.2)

/-- `WebSocketManager.broadcast`: return early when there are no
connections; otherwise snapshot the connection list, attempt delivery to
every connection, and remove the disconnected ones from the registry
(`_active_connections -= disconnected`) before returning. The returned
list is the set of connections that received the message. -/
def WebSocketManager.broadcast {α : Type} [DecidableEq α] (m : WebSocketManager α)
    (fails : α → Bool) : WebSocketManager α × List α :=
  if m.active_connections.isEmpty = true then (m, [])
  else
    let connections := m.active_connections
    let r := sendLoop fails connections
    let active1 := if r.2.isEmpty = true then m.active_connections
      else m.active_connections.filter (fun c => !(decide (c ∈ r.2)))
    ({ active_connections := active1 }, r.1)

/-- `WebSocketManager.get_connection_count`. -/
def WebSocketManager.get_connection_count {α : Type} (m : WebSocketManager α) : ℕ :=
  m.active_connections.length

/-- Claim C7 (confirmed): with 3 registered subscribers of which exactly
the middle one always fails on delivery, `broadcast` delivers the event
to the other 2, removes the failing subscriber from the registry before
returning, and `get_connection_count` afterwards returns 2. -/
theorem broadcast_prunes_failing_subscriber {α : Type} [DecidableEq α]
    (a b c : α) (fails : α → Bool) (hab : a ≠ b) (hcb : c ≠ b)
    (ha : fails a = false) (hb : fails b = true) (hc : fails c = false) :
    (WebSocketManager.broadcast ⟨[a, b, c]⟩ fails).2 = [a, c] ∧
    (WebSocketManager.broadcast ⟨[a, b, c]⟩ fails).1.active_connections = [a, c] ∧
    (WebSocketManager.broadcast ⟨[a, b, c]⟩ fails).1.get_connection_count = 2 := by
  have hloop : sendLoop fails [a, b, c] = ([a, c], [b]) := by
    simp [sendLoop, ha, hb, hc]
  refine ⟨?_, ?_, ?_⟩ <;>
    simp [WebSocketManager.broadcast, WebSocketManager.get_connection_count, hloop,
      List.filter, hab, hcb]

/-- Claim C7 witness: the theorem applied to subscribers `0, 1, 2` where
exactly subscriber `1` fails. -/
theorem broadcast_prunes_failing_subscriber_witness :
    (0 : ℕ) ≠ 1 ∧ (2 : ℕ) ≠ 1 ∧
    (fun n : ℕ => n == 1) 0 = false ∧ (fun n : ℕ => n == 1) 1 = true ∧
    (fun n : ℕ => n == 1) 2 = false ∧
    ((WebSocketManager.broadcast ⟨[0, 1, 2]⟩ (fun n : ℕ => n == 1)).2 = [0, 2] ∧
     (WebSocketManager.broadcast ⟨[0, 1, 2]⟩
        (fun n : ℕ => n == 1)).1.active_connections = [0, 2] ∧
     (WebSocketManager.broadcast ⟨[0, 1, 2]⟩
        (fun n : ℕ => n == 1)).1.get_connection_count = 2) :=
  ⟨by decide, by decide, by decide, by decide, by decide,
   broadcast_prunes_failing_subscriber 0 1 2 (fun n : ℕ => n == 1)
     (by decide) (by decide) (by decide) (by decide) (by decide)⟩

/-- Python `topic.split("/")` over the character list. -/
def splitOnSlash (cs : List Char) : List (List Char) :=
  match cs with
  | [] => [[]]
  | c :: rest =>
      let r := splitOnSlash rest
      if c = '/' then [] :: r
      else
        match r with
        | [] => [[c]]
        | g :: gs => (c :: g) :: gs

/-- The robot-id extraction at the top of every MQTT handler in
`main.py`: `parts = topic.split("/")`, then `parts[-1]` when there are
more than 2 parts, else `payload.get("robot_id", "unknown")`. -/
def extract_robot_id (topic : String) (payload : Payload) : String :=
  let parts := (splitOnSlash topic.data).map List.asString
  if parts.length > 2 then parts.getLastD ""
  else payload.robot_id?.getD "unknown"

/-- One call into `ws_manager` made by `handle_robot_status`: the message
type, the robot id and the fields of the payload dictionary that vary
(static constants such as `cpu_usage: 30` are omitted). -/
inductive SentEvent where
  | telemetry (robot_id : String) (data : Payload)
  | health_telemetry (robot_id : String) (battery_level health : ℚ)
      (health_status : String)
  | control_state (robot_id : String) (mode : String) (x y heading : ℚ)
  | pose_update (robot_id : String) (lat lon heading : ℚ)
  deriving DecidableEq

/-- `handle_robot_status` from `main.py`. Extracts the robot id, runs
`process_telemetry`, then broadcasts the telemetry event, a
`health_telemetry` event, a `control_state` event, and — when the payload
has truthy GPS coordinates — a `pose_update` event. The whole body is
wrapped in `try/except`: when `process_telemetry` re-raises (persistence
failure), control jumps to the handler's `except` clause, so none of the
broadcasts run; the exception never propagates further. Returns the new
processor/cache/database state and the list of broadcast events in
order. -/
def handle_robot_status (tp : TelemetryProcessor) (cache : RobotStateCache)
    (db : Database) (topic : String) (payload : Payload) (now : ℚ)
    (commit_fails : Bool) :
    TelemetryProcessor × RobotStateCache × Database × List SentEvent :=
  let robot_id := extract_robot_id topic payload
  let r := tp.process_telemetry cache db robot_id payload now commit_fails
  if r.2.2.2 = true then (r.1, r.2.1, r.2.2.1, [])
  else
    let health := payload.health?.getD 100
    let e1 := SentEvent.telemetry robot_id payload
    let e2 := SentEvent.health_telemetry robot_id (payload.battery?.getD 0) health
      (if health > 70 then "HEALTHY" else if health > 40 then "WARNING" else "CRITICAL")
    let theta := (payload.pose?.bind PoseData.theta?).getD 0
    let e3 := SentEvent.control_state robot_id ((payload.mode?.getD "STANDBY").toUpper)
      ((payload.pose?.bind PoseData.x?).getD 0) ((payload.pose?.bind PoseData.y?).getD 0)
      (theta * (572958 / 10000))
    let events := match payload.gps_latitude?, payload.gps_longitude? with
      | some la, some lo =>
          if la ≠ 0 ∧ lo ≠ 0 then
            [e1, e2, e3, SentEvent.pose_update robot_id la lo (theta * (572958 / 10000))]
          else [e1, e2, e3]
      | _, _ => [e1, e2, e3]
    (r.1, r.2.1, r.2.2.1, events)

/-- Claim C2 (counterexample): a status message whose database commit
fails produces NO broadcast at all — in particular
`ws_manager.broadcast_telemetry` is never reached — even though the
in-memory cache update has already happened: `process_telemetry`
re-raises after rollback and `handle_robot_status`'s `except` clause
catches it after the broadcast calls have been skipped. -/
theorem persistence_failure_skips_broadcast_counterexample :
    (handle_robot_status TelemetryProcessor.init [] ⟨[], [], []⟩ "robot/status/r1"
        { battery? := some 42 } 10 true).2.2.2 = [] ∧
    ((handle_robot_status TelemetryProcessor.init [] ⟨[], [], []⟩ "robot/status/r1"
        { battery? := some 42 } 10 true).2.1.get_state "r1").map RobotState.battery =
      some 42 := by
  have hrid : extract_robot_id "robot/status/r1" { battery? := some 42 } = "r1" := by
    decide
  constructor <;>
    norm_num [handle_robot_status, hrid, TelemetryProcessor.process_telemetry,
      TelemetryProcessor.init, dictGet?, RobotStateCache.update_state,
      RobotStateCache.get_state, dictSet, RobotState.update_from_telemetry,
      RobotState.init]

/-- Claim C2 (amended): when the Sample Store write is attempted (the
throttle window has passed) and the commit fails, the in-memory cache
update still happens, but the broadcast does NOT: `handle_robot_status`
returns with an empty broadcast list and an unchanged database, the
exception being caught by the handler after `process_telemetry`
re-raised it. -/
theorem persistence_failure_keeps_cache_skips_broadcast
    (tp : TelemetryProcessor) (cache : RobotStateCache) (db : Database)
    (topic : String) (payload : Payload) (now : ℚ)
    (h : ¬ (now - (dictGet? tp.last_db_write (extract_robot_id topic payload)).getD 0 <
      tp.min_write_interval)) :
    (handle_robot_status tp cache db topic payload now true).2.2.2 = [] ∧
    (handle_robot_status tp cache db topic payload now true).2.1 =
      cache.update_state (extract_robot_id topic payload) payload now ∧
    (handle_robot_status tp cache db topic payload now true).2.2.1 = db := by
  have hp : tp.process_telemetry cache db (extract_robot_id topic payload) payload now
      true =
      ({ last_db_write := dictSet tp.last_db_write (extract_robot_id topic payload) now,
         min_write_interval := tp.min_write_interval },
       cache.update_state (extract_robot_id topic payload) payload now, db, true) := by
    simp only [TelemetryProcessor.process_telemetry, if_neg h, eq_self_iff_true, if_true]
  refine ⟨?_, ?_, ?_⟩ <;> simp [handle_robot_status, hp]

/-- Claim C2 witness: the amended theorem applied at a fresh processor
and the topic `robot/status/r1`. -/
theorem persistence_failure_keeps_cache_skips_broadcast_witness :
    ¬ ((10 : ℚ) - (dictGet? TelemetryProcessor.init.last_db_write
        (extract_robot_id "robot/status/r1" { battery? := some 42 })).getD 0 <
      TelemetryProcessor.init.min_write_interval) ∧
    ((handle_robot_status TelemetryProcessor.init [] ⟨[], [], []⟩ "robot/status/r1"
        { battery? := some 42 } 10 true).2.2.2 = [] ∧
     (handle_robot_status TelemetryProcessor.init [] ⟨[], [], []⟩ "robot/status/r1"
        { battery? := some 42 } 10 true).2.1 =
       RobotStateCache.update_state []
         (extract_robot_id "robot/status/r1" { battery? := some 42 })
         { battery? := some 42 } 10 ∧
     (handle_robot_status TelemetryProcessor.init [] ⟨[], [], []⟩ "robot/status/r1"
        { battery? := some 42 } 10 true).2.2.1 = ⟨[], [], []⟩) :=
  ⟨by norm_num [TelemetryProcessor.init, dictGet?],
   persistence_failure_keeps_cache_skips_broadcast TelemetryProcessor.init [] ⟨[], [], []⟩
     "robot/status/r1" { battery? := some 42 } 10
     (by norm_num [TelemetryProcessor.init, dictGet?])⟩

/-- Insertion step for sorting rows by a rational key in descending
order (the SQL `ORDER BY timestamp DESC`). -/
def insertByDesc {α : Type} (key : α → ℚ) (r : α) : List α → List α
  | [] => [r]
  | x :: xs => if key x ≤ key r then r :: x :: xs else x :: insertByDesc key r xs

/-- Sort rows by a rational key in descending order. -/
def sortByDesc {α : Type} (key : α → ℚ) : List α → List α
  | [] => []
  | x :: xs => insertByDesc key x (sortByDesc key xs)

/-- The SQL statement of `get_robot_path`: filter the path-log table by
robot id, order by timestamp descending, apply `LIMIT`. -/
def query_path_logs (db : Database) (robot_id : String) (lim : ℕ) :
    List RobotPathLogRow :=
  (sortByDesc RobotPathLogRow.timestamp
    (db.path_logs.filter (fun r => r.robot_id == robot_id))).take lim

/-- `get_robot_path` from `main.py`: runs the descending query and then
returns the rows as `reversed(paths)` — in chronological order. -/
def get_robot_path (db : Database) (robot_id : String) (lim : ℕ) :
    List RobotPathLogRow :=
  (query_path_logs db robot_id lim).reverse

/-- The SQL statement of `get_battery_history`: filter the battery table
by robot id, order by timestamp descending, apply `LIMIT`. -/
def query_battery_logs (db : Database) (robot_id : String) (lim : ℕ) :
    List BatteryHistoryRow :=
  (sortByDesc BatteryHistoryRow.timestamp
    (db.battery_histories.filter (fun r => r.robot_id == robot_id))).take lim

/-- `get_battery_history` from `main.py`: descending query, then
`reversed(battery_logs)`. -/
def get_battery_history (db : Database) (robot_id : String) (lim : ℕ) :
    List BatteryHistoryRow :=
  (query_battery_logs db robot_id lim).reverse

theorem mem_insertByDesc {α : Type} (key : α → ℚ) (r y : α) (l : List α)
    (h : y ∈ insertByDesc key r l) : y = r ∨ y ∈ l := by
  induction l with
  | nil => simpa [insertByDesc] using h
  | cons x xs ih =>
      by_cases hx : key x ≤ key r
      · simp only [insertByDesc, if_pos hx, List.mem_cons] at h
        rcases h with h | h | h
        · exact Or.inl h
        · exact Or.inr (by simp [h])
        · exact Or.inr (List.mem_cons_of_mem x h)
      · simp only [insertByDesc, if_neg hx, List.mem_cons] at h
        rcases h with h | h
        · exact Or.inr (by simp [h])
        · rcases ih h with h' | h'
          · exact Or.inl h'
          · exact Or.inr (List.mem_cons_of_mem x h')

theorem pairwise_insertByDesc {α : Type} (key : α → ℚ) (r : α) (l : List α)
    (h : l.Pairwise (fun a b => key b ≤ key a)) :
    (insertByDesc key r l).Pairwise (fun a b => key b ≤ key a) := by
  induction l with
  | nil => simp [insertByDesc]
  | cons x xs ih =>
      rcases List.pairwise_cons.mp h with ⟨hx, hxs⟩
      by_cases hle : key x ≤ key r
      · simp only [insertByDesc, if_pos hle]
        refine List.pairwise_cons.mpr ⟨?_, h⟩
        intro y hy
        rcases List.mem_cons.mp hy with hy | hy
        · exact hy ▸ hle
        · exact le_trans (hx y hy) hle
      · simp only [insertByDesc, if_neg hle]
        refine List.pairwise_cons.mpr ⟨?_, ih hxs⟩
        intro y hy
        rcases mem_insertByDesc key r y xs hy with hy' | hy'
        · exact hy' ▸ le_of_lt (lt_of_not_le hle)
        · exact hx y hy'

theorem pairwise_sortByDesc {α : Type} (key : α → ℚ) (l : List α) :
    (sortByDesc key l).Pairwise (fun a b => key b ≤ key a) := by
  induction l with
  | nil => simp [sortByDesc]
  | cons x xs ih => exact pairwise_insertByDesc key x (sortByDesc key xs) ih

/-- Claim C8 (counterexample): with two persisted path rows for `r1` at
timestamps `1` and `2`, the path-history endpoint returns them in
ascending (chronological) order `[1, 2]`, not most-recent-first: the code
reverses the descending query result before returning. -/
theorem path_history_order_counterexample :
    (get_robot_path ⟨[], [⟨"r1", 0, 0, 0, 1⟩, ⟨"r1", 1, 1, 0, 2⟩], []⟩ "r1" 100).map
        RobotPathLogRow.timestamp = [1, 2] ∧
    ¬ (get_robot_path ⟨[], [⟨"r1", 0, 0, 0, 1⟩, ⟨"r1", 1, 1, 0, 2⟩], []⟩ "r1"
        100).Pairwise (fun a b => b.timestamp ≤ a.timestamp) := by
  have h : get_robot_path ⟨[], [⟨"r1", 0, 0, 0, 1⟩, ⟨"r1", 1, 1, 0, 2⟩], []⟩ "r1" 100 =
      [⟨"r1", 0, 0, 0, 1⟩, ⟨"r1", 1, 1, 0, 2⟩] := by
    norm_num [get_robot_path, query_path_logs, sortByDesc, insertByDesc, List.filter]
  rw [h]
  refine ⟨rfl, ?_⟩
  intro hp
  rcases List.pairwise_cons.mp hp with ⟨hfst, _⟩
  have := hfst ⟨"r1", 1, 1, 0, 2⟩ (List.mem_cons_self _ _)
  norm_num at this

/-- Claim C8 (amended): both sample-history endpoints return at most
`limit` rows, but in chronological (ascending-timestamp) order: the
underlying query selects the most recent `limit` rows descending, and
the endpoint reverses them before returning. -/
theorem history_endpoints_chronological (db : Database) (rid : String) (lim : ℕ) :
    (get_robot_path db rid lim).length ≤ lim ∧
    (get_robot_path db rid lim).Pairwise (fun a b => a.timestamp ≤ b.timestamp) ∧
    (get_battery_history db rid lim).length ≤ lim ∧
    (get_battery_history db rid lim).Pairwise (fun a b => a.timestamp ≤ b.timestamp) := by
  refine ⟨?_, ?_, ?_, ?_⟩
  · simp [get_robot_path, query_path_logs]
  · rw [get_robot_path, List.pairwise_reverse]
    exact List.Pairwise.sublist (List.take_sublist _ _)
      (pairwise_sortByDesc RobotPathLogRow.timestamp _)
  · simp [get_battery_history, query_battery_logs]
  · rw [get_battery_history, List.pairwise_reverse]
    exact List.Pairwise.sublist (List.take_sublist _ _)
      (pairwise_sortByDesc BatteryHistoryRow.timestamp _)

/-- Fuel-indexed glob matching (`fnmatch.fnmatch` as used by
`_dispatch_to_handlers`): `*` matches any run of characters, `?` any
single character, other characters match themselves. The fuel argument
only makes the double recursion structural; `fnmatch` below supplies
enough fuel for it never to run out. -/
def fnmatchAux : ℕ → List Char → List Char → Bool
  | 0, _, _ => false
  | _ + 1, [], [] => true
  | _ + 1, [], _ :: _ => false
  | f + 1, '*' :: ps, [] => fnmatchAux f ps []
  | f + 1, '*' :: ps, c :: cs =>
      fnmatchAux f ps (c :: cs) || fnmatchAux f ('*' :: ps) cs
  | f + 1, '?' :: ps, _ :: cs => fnmatchAux f ps cs
  | _ + 1, '?' :: _, [] => false
  | f + 1, p :: ps, c :: cs => (p == c) && fnmatchAux f ps cs
  | _ + 1, _ :: _, [] => false

/-- `fnmatch.fnmatch(topic, pattern)` on strings. -/
def fnmatch (pattern s : String) : Bool :=
  fnmatchAux (pattern.data.length + s.data.length + 1) pattern.data s.data

/-- `MQTTManager`'s handler registry: `_message_handlers`, an
insertion-ordered mapping from topic pattern to handler. A handler is
modelled as a state transformer over an arbitrary backend state `σ`
(e.g. the Entity State Cache together with everything else a handler may
touch). -/
structure MQTTManager (σ : Type) where
  message_handlers : List (String × (String → Payload → σ → σ))

/-- `MQTTManager._dispatch_to_handlers`: run every registered handler
whose pattern `fnmatch`-matches the topic, in registration order; an
unmatched topic merely logs a debug line — no state is touched and no
counter exists. -/
def MQTTManager.dispatch_to_handlers {σ : Type} (m : MQTTManager σ) (topic : String)
    (payload : Payload) (st : σ) : σ :=
  m.message_handlers.foldl
    (fun s ph => if fnmatch ph.1 topic = true then ph.2 topic payload s else s) st

/-- The seven handler patterns registered at startup in `main.py`. -/
def registered_handler_patterns : List String :=
  ["robot/status/*", "robot/pose/*", "robot/errors/*", "robot/joints/*",
   "robot/gps/*", "robot/battery/*", "robot/health/*"]

/-- Claim C9 (counterexample): dispatching the unparseable topic
`garbage_topic_no_slash` through the registered handlers leaves the
backend state bit-for-bit unchanged — here every handler is a counter
increment and the counter stays `0`, so no malformed-message counter is
incremented by 1 (no such counter exists in the code). -/
theorem malformed_topic_counter_counterexample :
    MQTTManager.dispatch_to_handlers
      ⟨registered_handler_patterns.map (fun p => (p, fun _ _ n => n + 1))⟩
      "garbage_topic_no_slash" {} (0 : ℕ) = 0 ∧ (0 : ℕ) ≠ 1 := by
  exact ⟨rfl, by decide⟩

/-- Claim C9 (amended): dispatching a message whose topic matches no
registered category pattern raises no exception and leaves the entire
backend state — the Entity State Cache included — unchanged; but no
malformed-message counter exists, so nothing is incremented: whatever
handlers are attached to the registered patterns, the state is returned
untouched. -/
theorem malformed_topic_leaves_state_unchanged {σ : Type}
    (f : String → String → Payload → σ → σ) (payload : Payload) (st : σ) :
    MQTTManager.dispatch_to_handlers
      ⟨registered_handler_patterns.map (fun p => (p, f p))⟩
      "garbage_topic_no_slash" payload st = st := by
  rfl

end RobotBackend
